import Mathlib

/-!
Shallow embedding of the VISCA command codec and lifecycle from
`src/visca-serial.ts` (class `ViscaCommand`).

JavaScript 32-bit bitwise semantics are modelled explicitly
(`toUint32` / `toInt32OfUint`); an out-of-range array index yields an
`Option`, coerced the way JavaScript coerces `undefined` inside a
bitwise expression (`undefined & m` evaluates to `0`).

Callback invocations are made observable as an event trace: each
lifecycle transition returns the updated command together with the list
of callback/parser invocations it performed, in order.
-/

namespace Visca

/-- ECMAScript `ToUint32`: reduce an integral number modulo `2^32`. -/
def toUint32 (x : Int) : Nat := (x % (2 ^ 32 : Int)).toNat

/-- Reinterpret a value below `2^32` as a signed 32-bit integer. -/
def toInt32OfUint (u : Nat) : Int :=
  if u < 2 ^ 31 then (u : Int) else (u : Int) - 2 ^ 32

/-- JavaScript bitwise `&` on integral numbers. -/
def jsAnd (a b : Int) : Int := toInt32OfUint ((toUint32 a &&& toUint32 b) % 2 ^ 32)

/-- JavaScript bitwise `|` on integral numbers. -/
def jsOr (a b : Int) : Int := toInt32OfUint ((toUint32 a ||| toUint32 b) % 2 ^ 32)

/-- JavaScript `<<` (left shift within 32 bits). -/
def jsShl (a : Int) (n : Nat) : Int := toInt32OfUint ((toUint32 a <<< n) % 2 ^ 32)

/-- JavaScript `>>` (sign-propagating right shift = floor division on int32). -/
def jsShr (a : Int) (n : Nat) : Int := Int.fdiv (toInt32OfUint (toUint32 a)) (2 ^ n)

/-- JavaScript `x & m` where `x` may be `undefined` (an out-of-range array
read): `undefined` coerces to `NaN` and `ToInt32 NaN = 0`, so the result
is `0`. -/
def undefAnd (o : Option Int) (m : Int) : Int :=
  match o with
  | some v => jsAnd v m
  | none => 0

/-- Modelled from the spec: the repository's `constants.ts` is not under
`src/`; the opcode values below come from spec sections 4.1 and 6
(Command=0x01, Inquiry=0x09, Ack=0x40, Complete=0x50) and from the wire
layout documented in the source file's own protocol comments. -/
def MSGTYPE_COMMAND : Int := 0x01

/-- Modelled from the spec: Inquiry request opcode. -/
def MSGTYPE_INQUIRY : Int := 0x09

/-- Modelled from the spec: AddressSet standalone request opcode. -/
def MSGTYPE_ADDRESS_SET : Int := 0x30

/-- Modelled from the spec: NetworkChange standalone request opcode. -/
def MSGTYPE_NETCHANGE : Int := 0x38

/-- Modelled from the spec: Ack reply high nibble. -/
def MSGTYPE_ACK : Int := 0x40

/-- Modelled from the spec: Complete reply high nibble. -/
def MSGTYPE_COMPLETE : Int := 0x50

/-- Modelled from the spec: Error reply high nibble. -/
def MSGTYPE_ERROR : Int := 0x60

/-- Modelled from the spec: Cancel request high nibble. -/
def MSGTYPE_CANCEL : Int := 0x20

/-- Modelled from the spec: header mask for the sender id (bits 6-4). -/
def HEADERMASK_SOURCE : Int := 0b01110000

/-- Modelled from the spec: header mask for the recipient id (bits 2-0). -/
def HEADERMASK_RECIPIENT : Int := 0b00000111

/-- Modelled from the spec: header mask for the broadcast flag (bit 3). -/
def HEADERMASK_BROADCAST : Int := 0b00001000

/-- Modelled from the spec: interface category byte (0x00). -/
def DATATYPE_INTERFACE : Int := 0x00

/-- Modelled from the spec: camera category byte (0x04). -/
def DATATYPE_CAMERA : Int := 0x04

/-- Modelled from the spec: pan/tilt (operation) category byte (0x06). -/
def DATATYPE_OPERATION : Int := 0x06

/-- Modelled from the spec: zoom-drive opcode for the camera category. -/
def CAM_ZOOM : Int := 0x07

/-- Modelled from the spec: stop value for zoom/focus drive commands. -/
def DATA_RESET : Int := 0x00

/-- Modelled from the spec: increase value for zoom/focus drive commands. -/
def DATA_MORE : Int := 0x02

/-- Modelled from the spec: decrease value for zoom/focus drive commands. -/
def DATA_LESS : Int := 0x03

/-- JavaScript `toString(16)` of a natural number, lowercase hex, as JavaScript. -/
def natHexStr (n : Nat) : String := String.mk (Nat.toDigits 16 n)

/-- JavaScript `Number.prototype.toString(16)` for integral values. -/
def intHexStr (i : Int) : String :=
  if i < 0 then "-" ++ natHexStr i.natAbs else natHexStr i.natAbs

/-- Embeds `ViscaCommand._hexify`: hex strings joined by spaces. -/
def hexify (data : List Int) : String :=
  String.intercalate " " (data.map intHexStr)

/-- One observable callback or parser invocation made by a lifecycle
transition of `ViscaCommand`. -/
inductive CbEvent where
  | ack : CbEvent
  | complete : Option (List Int) → CbEvent
  | error : String → CbEvent
  | parse : List Int → CbEvent
  deriving Repr, DecidableEq

/-- Recognizes parser-invocation events in a transition's event trace. -/
def CbEvent.isParse : CbEvent → Bool
  | CbEvent.parse _ => true
  | _ => false

/-- The mutable state of a `ViscaCommand` object. Callback fields are
modelled by their presence (`undefined` or not); `dataParser` keeps the
actual function (`none` models `undefined`). -/
structure ViscaCommand where
  source : Int
  recipient : Int
  broadcast : Bool
  msgType : Int
  socket : Int
  dataType : Int
  data : List Int
  packetHexString : String
  status : Int
  hasOnAck : Bool
  hasOnComplete : Bool
  hasOnError : Bool
  dataParser : Option (List Int → List Int)

/-- Embeds `Parsers.NoParser.parse`, the constructor's default parser; the spec
describes it as identity/no-op. -/
def noParse : List Int → List Int := fun x => x

namespace ViscaCommand

/-- Embeds `ViscaCommand._header`, which also mutates `broadcast`: returns the
header byte and the updated command. Note the source's mask `0x111`
(273), kept verbatim. -/
def headerM (c : ViscaCommand) : Int × ViscaCommand :=
  let c := if c.recipient > -1 then { c with broadcast := false } else c
  let header : Int :=
    if !c.broadcast then
      jsOr (jsOr 0b10000000 (jsShl c.source 4)) (jsAnd c.recipient 0x111)
    else 0x88
  (header, c)

/-- Embeds `ViscaCommand.toPacket`: returns the encoded packet and the command
as left by the embedded `_header` call. -/
def toPacketM (c : ViscaCommand) : List Int × ViscaCommand :=
  let hc := c.headerM
  let header := hc.1
  let c := hc.2
  let qq := jsOr c.msgType c.socket
  let rr := c.dataType
  if rr > 0 then (header :: qq :: rr :: (c.data ++ [0xff]), c)
  else (header :: qq :: (c.data ++ [0xff]), c)

end ViscaCommand

/-- The `ViscaCommand` constructor with all parameter defaults resolved
by the caller: stores the fields, sets `status := 0`, then computes
`packetHexString` from `toPacket()` (which can flip `broadcast`). -/
def mkCommand (source recipient : Int) (broadcast : Bool)
    (msgType socket dataType : Int) (data : List Int)
    (hasOnAck hasOnComplete hasOnError : Bool)
    (dataParser : Option (List Int → List Int)) : ViscaCommand :=
  let c : ViscaCommand :=
    { source := source, recipient := recipient, broadcast := broadcast,
      msgType := msgType, socket := socket, dataType := dataType,
      data := data, packetHexString := "", status := 0,
      hasOnAck := hasOnAck, hasOnComplete := hasOnComplete,
      hasOnError := hasOnError, dataParser := dataParser }
  let pc := c.toPacketM
  { pc.2 with packetHexString := hexify pc.1 }

namespace ViscaCommand

/-- Embeds `ViscaCommand._parsePacket`: overwrite the command's decoded fields
from a raw packet. No length or terminator validation is performed. -/
def parsePacket (c : ViscaCommand) (packet : List Int) : ViscaCommand :=
  let header := packet.get? 0
  let source := jsShr (undefAnd header HEADERMASK_SOURCE) 4
  let recipient := undefAnd header HEADERMASK_RECIPIENT
  let broadcast := jsShr (undefAnd header HEADERMASK_BROADCAST) 3 == 1
  let ms : Int × Int :=
    match packet.get? 1 with
    | some b =>
      if b = MSGTYPE_COMMAND ∨ b = MSGTYPE_INQUIRY ∨
          b = MSGTYPE_ADDRESS_SET ∨ b = MSGTYPE_NETCHANGE then (b, 0)
      else (jsAnd b 0b11110000, jsAnd b 0b00001111)
    | none => (0, 0)
  let data0 := (packet.take (packet.length - 1)).drop 2
  let dt : Int × List Int :=
    if data0.length < 2 then (0, data0) else (data0.headD 0, data0.tail)
  { c with
    packetHexString := hexify packet, source := source,
    recipient := recipient, broadcast := broadcast, msgType := ms.1,
    socket := ms.2, dataType := dt.1, data := dt.2 }

/-- Embeds `ViscaCommand.handleAck`: set status to Ack, invoke `onAck` if present. -/
def handleAck (c : ViscaCommand) : ViscaCommand × List CbEvent :=
  ({ c with status := MSGTYPE_ACK },
    if c.hasOnAck then [CbEvent.ack] else [])

/-- Embeds `ViscaCommand.handleError`: set status to Error, invoke `onError` if
present. -/
def handleError (c : ViscaCommand) (err : String) : ViscaCommand × List CbEvent :=
  ({ c with status := MSGTYPE_ERROR },
    if c.hasOnError then [CbEvent.error err] else [])

/-- Embeds `ViscaCommand.handleComplete`: set status to Complete; run the parser
when both it and the raw data are present; then invoke `onComplete` with
no argument when the (parsed) data is absent or empty, else with it. -/
def handleComplete (c : ViscaCommand) (rawData : Option (List Int)) :
    ViscaCommand × List CbEvent :=
  let parsed : Option (List Int) × List CbEvent :=
    match c.dataParser, rawData with
    | some p, some d => (some (p d), [CbEvent.parse d])
    | _, rd => (rd, [])
  let cb : List CbEvent :=
    if c.hasOnComplete then
      match parsed.1 with
      | none => [CbEvent.complete none]
      | some d =>
        if d.length = 0 then [CbEvent.complete none]
        else [CbEvent.complete (some d)]
    else []
  ({ c with status := MSGTYPE_COMPLETE }, parsed.2 ++ cb)

/-- Embeds `ViscaCommand.fromPacket`: decode via a default-constructed command. -/
def fromPacket (packet : List Int) : ViscaCommand :=
  (mkCommand 0 (-1) true MSGTYPE_COMMAND 0 0 [] false false false
    (some noParse)).parsePacket packet

/-- Embeds `ViscaCommand.cmd`: the Command-message builder primitive. -/
def cmd (recipient dataType : Int) (data : List Int) : ViscaCommand :=
  mkCommand 0 recipient true MSGTYPE_COMMAND 0 dataType data
    false false false (some noParse)

/-- Embeds `ViscaCommand.inquire`: the Inquiry-message builder primitive; an
omitted parser argument falls back to the constructor default. -/
def inquire (recipient dataType : Int) (data : List Int)
    (hasOnComplete : Bool) (p : Option (List Int → List Int)) : ViscaCommand :=
  mkCommand 0 recipient true MSGTYPE_INQUIRY 0 dataType data
    false hasOnComplete false (some (p.getD noParse))

/-- Embeds `ViscaCommand.cmdCamera`. -/
def cmdCamera (recipient : Int) (data : List Int) : ViscaCommand :=
  cmd recipient DATATYPE_CAMERA data

/-- Embeds `ViscaCommand.cmdCameraZoom`: zoom drive; packs direction and speed. -/
def cmdCameraZoom (device offinout speed : Int) : ViscaCommand :=
  let data := offinout
  let data :=
    if speed > -1 ∧ offinout ≠ DATA_RESET then jsShl data 8 + jsAnd speed 0b111
    else data
  cmdCamera device [CAM_ZOOM, data]

/-- Embeds `ViscaCommand.cmdCameraFocus`: focus drive as written in the source,
whose payload opcode is `C.CAM_ZOOM`. -/
def cmdCameraFocus (device stopfarnear speed : Int) : ViscaCommand :=
  let data := stopfarnear
  let data :=
    if speed > -1 ∧ stopfarnear ≠ DATA_RESET then jsShl data 8 + jsAnd speed 0b111
    else data
  cmdCamera device [CAM_ZOOM, data]

end ViscaCommand

/-- True on the status codes of the terminal lifecycle states reachable
through the transition handlers (Completed, Error; no handler ever
stores a Cancelled code). -/
def isTerminalStatus (s : Int) : Bool :=
  s == MSGTYPE_COMPLETE || s == MSGTYPE_ERROR

/-- Position of a status code in the lifecycle order
Pending → Acknowledged → terminal. -/
def lifecycleRank (s : Int) : Nat :=
  if s = 0 then 0 else if s = MSGTYPE_ACK then 1 else 2

end Visca

namespace Visca

/-- Helper: `ToUint32` inverts `toInt32OfUint` below `2^32`. -/
theorem toUint32_toInt32OfUint (u : Nat) (hu : u < 2 ^ 32) :
    toUint32 (toInt32OfUint u) = u := by
  unfold toUint32 toInt32OfUint
  split <;> omega

/-- Helper: a 32-bit value whose bit 3 is clear is not 0x88. -/
theorem toInt32OfUint_ne_of_testBit3 (u : Nat) (hu : u < 2 ^ 32)
    (hb : u.testBit 3 = false) : toInt32OfUint u ≠ 136 := by
  intro h
  unfold toInt32OfUint at h
  have hu136 : u = 136 := by split at h <;> omega
  rw [hu136] at hb
  exact absurd hb (by decide)

/-- Helper: the addressed header expression of `_header` never equals the
broadcast header 0x88, for any source and recipient. -/
theorem addressedHeader_ne_0x88 (s r : Int) :
    jsOr (jsOr 0b10000000 (jsShl s 4)) (jsAnd r 0x111) ≠ 0x88 := by
  unfold jsOr jsShl jsAnd
  apply toInt32OfUint_ne_of_testBit3
  · exact Nat.mod_lt _ (by norm_num)
  · rw [toUint32_toInt32OfUint _ (Nat.mod_lt _ (by norm_num)),
      toUint32_toInt32OfUint _ (Nat.mod_lt _ (by norm_num)),
      toUint32_toInt32OfUint _ (Nat.mod_lt _ (by norm_num))]
    simp only [Nat.testBit_mod_two_pow, Nat.testBit_or, Nat.testBit_and,
      Nat.testBit_shiftLeft]
    have h128 : toUint32 0b10000000 = 128 := rfl
    have h273 : toUint32 0x111 = 273 := rfl
    rw [h128, h273]
    simp
    exact ⟨by decide, fun _ => by decide⟩

/-- Helper: second component of `_header`. -/
theorem headerM_snd (c : ViscaCommand) :
    c.headerM.2 = if c.recipient > -1 then { c with broadcast := false } else c := rfl

/-- Helper: `toPacket` mutates the command exactly as `_header` does. -/
theorem toPacketM_snd (c : ViscaCommand) : c.toPacketM.2 = c.headerM.2 := by
  unfold ViscaCommand.toPacketM
  dsimp only
  split <;> rfl

/-- Helper: the encoded packet, with the category byte present exactly
when `dataType > 0`. -/
theorem toPacketM_fst (c : ViscaCommand) :
    c.toPacketM.1 =
      if c.dataType > 0 then
        c.headerM.1 :: jsOr c.msgType c.socket :: c.dataType :: (c.data ++ [0xff])
      else c.headerM.1 :: jsOr c.msgType c.socket :: (c.data ++ [0xff]) := by
  unfold ViscaCommand.toPacketM ViscaCommand.headerM
  by_cases hr : c.recipient > -1 <;> simp [hr] <;> split <;> rfl

/-- Helper: the packet always starts with the `_header` byte. -/
theorem toPacketM_head (c : ViscaCommand) :
    (c.toPacketM.1).head? = some c.headerM.1 := by
  unfold ViscaCommand.toPacketM
  dsimp only
  split <;> rfl

end Visca

namespace Visca

/-- C1: the encode/decode round trip does not reproduce the recipient.
Evaluated at the failing input `cmd 2 DATATYPE_CAMERA [0x00, 0x02]`
(a camera power-on command addressed to device 2): `toPacket` emits
header 0x80 because `_header` masks the recipient with 0x111 instead of
0b111, and `fromPacket` then decodes recipient 0, not 2. -/
theorem c1_roundTrip_drops_recipient :
    (ViscaCommand.cmd 2 DATATYPE_CAMERA [0x00, 0x02]).toPacketM.1 =
      [0x80, 0x01, 0x04, 0x00, 0x02, 0xff] ∧
    (ViscaCommand.fromPacket
      ((ViscaCommand.cmd 2 DATATYPE_CAMERA [0x00, 0x02]).toPacketM.1)).recipient = 0 ∧
    (ViscaCommand.cmd 2 DATATYPE_CAMERA [0x00, 0x02]).recipient = 2 := by
  refine ⟨by decide, by decide, by decide⟩

/-- C2: for the non-broadcast command with source 0 and recipient 2 the
code emits header byte 0x80, while the spec formula
`0x80 OR (source shl 4) OR (recipient AND 0x07)` gives 0x82: the
source's recipient mask 0x111 is a slip for 0b111. -/
theorem c2_header_mask_slip :
    (ViscaCommand.cmd 2 DATATYPE_CAMERA [0x00, 0x02]).headerM.1 = 0x80 ∧
    jsOr (jsOr 0x80 (jsShl 0 4)) (jsAnd 2 HEADERMASK_RECIPIENT) = 0x82 := by
  refine ⟨by decide, by decide⟩

/-- C10: for every device and every (direction, speed) pair, the focus
drive builder produces a command whose encoded packet is byte-for-byte
identical to the zoom drive builder's, the focus builder using the
`CAM_ZOOM` opcode. -/
theorem c10_focus_equals_zoom (device offinout speed : Int) :
    (ViscaCommand.cmdCameraFocus device offinout speed).toPacketM.1 =
      (ViscaCommand.cmdCameraZoom device offinout speed).toPacketM.1 ∧
    ViscaCommand.cmdCameraFocus device offinout speed =
      ViscaCommand.cmdCameraZoom device offinout speed :=
  ⟨rfl, rfl⟩

/-- C5 counterexample: the packet `[0x81, 0x01, 0x00, 0x05, 0xff]` has a
body of exactly 2 bytes, yet decoding yields `dataType = 0` (the first
body byte, 0x00, is extracted verbatim), refuting "a body of exactly 2
bytes always yields a non-zero dataType". -/
theorem c5_two_byte_body_zero_dataType :
    (ViscaCommand.fromPacket [0x81, 0x01, 0x00, 0x05, 0xff]).dataType = 0 ∧
    (ViscaCommand.fromPacket [0x81, 0x01, 0x00, 0x05, 0xff]).data = [0x05] := by
  refine ⟨by decide, by decide⟩

/-- C5 amended: a body of exactly 1 byte never yields a non-zero
`dataType` (the byte stays in `data`); a body of exactly 2 bytes always
has its first byte removed and stored as `dataType` (which is therefore
zero when that byte is 0x00); on encode the category byte is emitted
exactly when `dataType > 0`. -/
theorem c5_category_byte_asymmetry (h q b b1 b2 t : Int) (c : ViscaCommand) :
    (ViscaCommand.fromPacket [h, q, b, t]).dataType = 0 ∧
    (ViscaCommand.fromPacket [h, q, b, t]).data = [b] ∧
    (ViscaCommand.fromPacket [h, q, b1, b2, t]).dataType = b1 ∧
    (ViscaCommand.fromPacket [h, q, b1, b2, t]).data = [b2] ∧
    (c.toPacketM.1 =
      if c.dataType > 0 then
        c.headerM.1 :: jsOr c.msgType c.socket :: c.dataType :: (c.data ++ [0xff])
      else c.headerM.1 :: jsOr c.msgType c.socket :: (c.data ++ [0xff])) :=
  ⟨rfl, rfl, rfl, rfl, toPacketM_fst c⟩

/-- C9 counterexample: the claim fails in two ways at concrete inputs.
Decoding the broadcast frame `[0x88, 0x38, 0xff]` builds a command with
`broadcast = true` and `recipient = 0`, and a subsequent `toPacket`
flips `broadcast` to `false`, so status is not the only field a
subsequent operation changes; and a built command moved to the terminal
Completed state returns to the earlier Acknowledged state when
`handleAck` is invoked afterwards, refuting monotonic advance. -/
theorem c9_not_only_status_and_not_monotonic :
    (ViscaCommand.fromPacket [0x88, 0x38, 0xff]).broadcast = true ∧
    (((ViscaCommand.fromPacket [0x88, 0x38, 0xff]).toPacketM).2).broadcast = false ∧
    (((ViscaCommand.cmd 1 DATATYPE_CAMERA [0x00, 0x02]).handleComplete none).1).status =
      MSGTYPE_COMPLETE ∧
    (((((ViscaCommand.cmd 1 DATATYPE_CAMERA [0x00, 0x02]).handleComplete none).1).handleAck).1).status =
      MSGTYPE_ACK ∧
    lifecycleRank MSGTYPE_ACK < lifecycleRank MSGTYPE_COMPLETE := by
  refine ⟨by decide, by decide, rfl, rfl, by decide⟩

/-- C9 amended: for every command, however built, `toPacket` and the
lifecycle transitions leave the encoded byte form (the output of
`toPacket`) unchanged; the lifecycle transitions change only `status`,
which records the last transition invoked with no monotonicity guard;
and `toPacket` changes no field except that its embedded `_header` call
clears `broadcast` whenever `recipient > -1` (observable on the first
encode of a decode-built broadcast command, and a no-op thereafter). -/
theorem c9_operations_stable_encoding (c : ViscaCommand) (err : String)
    (raw : Option (List Int)) :
    ((c.toPacketM.2).toPacketM).1 = c.toPacketM.1 ∧
    (((c.handleAck).1).toPacketM).1 = c.toPacketM.1 ∧
    (((c.handleError err).1).toPacketM).1 = c.toPacketM.1 ∧
    (((c.handleComplete raw).1).toPacketM).1 = c.toPacketM.1 ∧
    (c.handleAck).1 = { c with status := MSGTYPE_ACK } ∧
    (c.handleError err).1 = { c with status := MSGTYPE_ERROR } ∧
    (c.handleComplete raw).1 = { c with status := MSGTYPE_COMPLETE } ∧
    c.toPacketM.2 =
      (if c.recipient > -1 then { c with broadcast := false } else c) := by
  have hp : ∀ s : Int, (ViscaCommand.toPacketM { c with status := s }).1 = c.toPacketM.1 := by
    intro s
    unfold ViscaCommand.toPacketM ViscaCommand.headerM
    by_cases hr : c.recipient > -1 <;> simp [hr] <;> split <;> rfl
  have hb : ((c.toPacketM.2).toPacketM).1 = c.toPacketM.1 := by
    rw [toPacketM_snd, headerM_snd]
    by_cases hr : c.recipient > -1
    · rw [if_pos hr]
      unfold ViscaCommand.toPacketM ViscaCommand.headerM
      simp [hr]
    · rw [if_neg hr]
  exact ⟨hb, hp _, hp _, hp _, rfl, rfl, rfl, by rw [toPacketM_snd, headerM_snd]⟩

/-- C7: a real recipient (`recipient > -1`) forces `broadcast := false`
in `_header` regardless of its prior value, and the emitted packet
starts with the addressed header byte, which is never 0x88. -/
theorem c7_recipient_forces_addressed (c : ViscaCommand)
    (h : c.recipient > -1) :
    (c.headerM.2).broadcast = false ∧
    (c.toPacketM.2).broadcast = false ∧
    c.headerM.1 ≠ 0x88 ∧
    (c.toPacketM.1).head? = some c.headerM.1 := by
  have h2 : c.headerM.2 = { c with broadcast := false } := by
    rw [headerM_snd, if_pos h]
  have h1 : c.headerM.1 =
      jsOr (jsOr 0b10000000 (jsShl c.source 4)) (jsAnd c.recipient 0x111) := by
    unfold ViscaCommand.headerM
    simp [h]
  refine ⟨by rw [h2], by rw [toPacketM_snd, h2], ?_, toPacketM_head c⟩
  rw [h1]
  exact addressedHeader_ne_0x88 _ _

/-- C7 witness: the command `cmd 1 DATATYPE_CAMERA []` has recipient 1
and its header state after encoding is non-broadcast. -/
theorem c7_recipient_forces_addressed_witness :
    (ViscaCommand.cmd 1 DATATYPE_CAMERA []).recipient > -1 ∧
    ((ViscaCommand.cmd 1 DATATYPE_CAMERA []).headerM.2).broadcast = false ∧
    (ViscaCommand.cmd 1 DATATYPE_CAMERA []).headerM.1 ≠ 0x88 :=
  ⟨by decide,
    (c7_recipient_forces_addressed (ViscaCommand.cmd 1 DATATYPE_CAMERA []) (by decide)).1,
    (c7_recipient_forces_addressed (ViscaCommand.cmd 1 DATATYPE_CAMERA []) (by decide)).2.2.1⟩

end Visca

namespace Visca

/-- C3 counterexample: an inquiry command already in the terminal
Completed state has its `onComplete` callback (and its parser) invoked
again when `handleComplete` is re-invoked, refuting "a no-op that does
not re-invoke any callback". -/
theorem c3_terminal_reinvokes_callback :
    isTerminalStatus
      (((ViscaCommand.inquire 1 DATATYPE_CAMERA [0x00] true (some noParse)).handleComplete
        (some [0x02])).1).status = true ∧
    ((((ViscaCommand.inquire 1 DATATYPE_CAMERA [0x00] true (some noParse)).handleComplete
        (some [0x02])).1).handleComplete (some [0x02])).2 =
      [CbEvent.parse [0x02], CbEvent.complete (some [0x02])] :=
  ⟨rfl, rfl⟩

/-- C3 amended: the lifecycle transitions carry no terminal-state guard:
invoked on a command in a terminal state they overwrite `status` with
the new transition's code and invoke the corresponding callback again
whenever it is present; exactly-once callback delivery therefore relies
on the dispatcher delivering each reply once, not on the command. -/
theorem c3_transitions_not_terminal_guarded (c : ViscaCommand) (err : String)
    (raw : Option (List Int)) (h : isTerminalStatus c.status = true) :
    (c.handleAck).1.status = MSGTYPE_ACK ∧
    (c.handleAck).2 = (if c.hasOnAck then [CbEvent.ack] else []) ∧
    (c.handleError err).1.status = MSGTYPE_ERROR ∧
    (c.handleError err).2 = (if c.hasOnError then [CbEvent.error err] else []) ∧
    (c.handleComplete raw).1.status = MSGTYPE_COMPLETE :=
  ⟨rfl, rfl, rfl, rfl, rfl⟩

/-- C3 witness: the amended statement at a concrete Completed command
with callbacks installed. -/
theorem c3_transitions_not_terminal_guarded_witness :
    isTerminalStatus
      (((mkCommand 0 1 true MSGTYPE_INQUIRY 0 DATATYPE_CAMERA [0x00] true true true
        (some noParse)).handleComplete (some [0x02])).1).status = true ∧
    ((((mkCommand 0 1 true MSGTYPE_INQUIRY 0 DATATYPE_CAMERA [0x00] true true true
        (some noParse)).handleComplete (some [0x02])).1).handleAck).2 =
      (if (((mkCommand 0 1 true MSGTYPE_INQUIRY 0 DATATYPE_CAMERA [0x00] true true true
        (some noParse)).handleComplete (some [0x02])).1).hasOnAck then [CbEvent.ack]
       else []) :=
  ⟨rfl,
    (c3_transitions_not_terminal_guarded
      (((mkCommand 0 1 true MSGTYPE_INQUIRY 0 DATATYPE_CAMERA [0x00] true true true
        (some noParse)).handleComplete (some [0x02])).1) "e" none rfl).2.1⟩

/-- C6 counterexample: `handleComplete (some [])` invokes the configured
parser with the empty byte list, refuting "invoked only with non-empty
data". -/
theorem c6_parser_invoked_on_empty :
    ((ViscaCommand.inquire 1 DATATYPE_CAMERA [0x00] true (some noParse)).handleComplete
      (some [])).2 = [CbEvent.parse [], CbEvent.complete none] :=
  rfl

/-- C6 amended: `handleAck` and `handleError` never invoke the parser;
`handleComplete` invokes it exactly when a parser is configured and the
raw data argument is present — including when it is present but empty —
so parser invocation happens only on the Completed transition. -/
theorem c6_parser_only_on_complete (c : ViscaCommand) (err : String)
    (raw : Option (List Int)) :
    ((c.handleAck).2.filter CbEvent.isParse = []) ∧
    ((c.handleError err).2.filter CbEvent.isParse = []) ∧
    ((c.handleComplete raw).2.filter CbEvent.isParse =
      match c.dataParser, raw with
      | some _, some d => [CbEvent.parse d]
      | _, _ => []) := by
  refine ⟨?_, ?_, ?_⟩
  · by_cases hA : c.hasOnAck <;>
      simp [ViscaCommand.handleAck, hA, CbEvent.isParse]
  · by_cases hE : c.hasOnError <;>
      simp [ViscaCommand.handleError, hE, CbEvent.isParse]
  · rcases hdp : c.dataParser with _ | p <;> rcases raw with _ | d <;>
      by_cases hC : c.hasOnComplete <;>
        simp [ViscaCommand.handleComplete, hdp, hC, CbEvent.isParse] <;>
          split <;> simp [CbEvent.isParse]

end Visca

namespace Visca

/-- C4: `handleComplete` sets status to Completed and, with a configured
parser and present raw data, invokes the parser before `onComplete`,
passing `onComplete` no argument when the data is absent or empty after
parsing and the parsed result otherwise; in particular acknowledge then
`complete []` fires `onAck` once and `onComplete` with no argument, and
`complete [0x02, 0x03]` fires `onComplete` with `parser [0x02, 0x03]`. -/
theorem c4_handleComplete_contract (c : ViscaCommand) (p : List Int → List Int)
    (hp : c.dataParser = some p) (hc : c.hasOnComplete = true)
    (ha : c.hasOnAck = true) (hpend : c.status = 0)
    (h0 : p [] = []) (h23 : p [0x02, 0x03] ≠ []) :
    (∀ raw, ((c.handleComplete raw).1).status = MSGTYPE_COMPLETE) ∧
    (∀ d, (c.handleComplete (some d)).2 =
      CbEvent.parse d ::
        (if p d = [] then [CbEvent.complete none]
         else [CbEvent.complete (some (p d))])) ∧
    ((c.handleComplete none).2 = [CbEvent.complete none]) ∧
    ((c.handleAck).2 = [CbEvent.ack]) ∧
    ((((c.handleAck).1).handleComplete (some [])).2 =
      [CbEvent.parse [], CbEvent.complete none]) ∧
    ((c.handleComplete (some [0x02, 0x03])).2 =
      [CbEvent.parse [0x02, 0x03], CbEvent.complete (some (p [0x02, 0x03]))]) := by
  have hevents : ∀ d, (c.handleComplete (some d)).2 =
      CbEvent.parse d ::
        (if p d = [] then [CbEvent.complete none]
         else [CbEvent.complete (some (p d))]) := by
    intro d
    by_cases hd : (p d).length = 0
    · have hd2 : p d = [] := List.length_eq_zero.mp hd
      simp [ViscaCommand.handleComplete, hp, hc, hd, hd2]
    · have hd2 : ¬ p d = [] := fun hh => hd (by simp [hh])
      simp [ViscaCommand.handleComplete, hp, hc, hd, hd2]
  refine ⟨fun raw => rfl, hevents, ?_, ?_, ?_, ?_⟩
  · simp [ViscaCommand.handleComplete, hp, hc]
  · simp [ViscaCommand.handleAck, ha]
  · simp [ViscaCommand.handleAck, ViscaCommand.handleComplete, hp, hc, h0]
  · rw [hevents, if_neg h23]

/-- C4 witness: the contract at a concrete pending inquiry command whose
parser is the default `noParse`. -/
theorem c4_handleComplete_contract_witness :
    noParse [0x02, 0x03] ≠ [] ∧
    ((mkCommand 0 1 true MSGTYPE_INQUIRY 0 DATATYPE_CAMERA [0x00] true true false
      (some noParse)).handleComplete (some [0x02, 0x03])).2 =
      [CbEvent.parse [0x02, 0x03], CbEvent.complete (some (noParse [0x02, 0x03]))] :=
  ⟨by decide,
    (c4_handleComplete_contract
      (mkCommand 0 1 true MSGTYPE_INQUIRY 0 DATATYPE_CAMERA [0x00] true true false
        (some noParse)) noParse rfl rfl rfl rfl rfl (by decide)).2.2.2.2.2⟩

/-- Helper: the decoded fields of `fromPacket` depend only on the first
two bytes and on the packet with its last byte removed. -/
theorem fromPacket_fields_congr (pk qk : List Int)
    (h0 : pk.get? 0 = qk.get? 0) (h1 : pk.get? 1 = qk.get? 1)
    (h2 : pk.take (pk.length - 1) = qk.take (qk.length - 1)) :
    (ViscaCommand.fromPacket pk).source = (ViscaCommand.fromPacket qk).source ∧
    (ViscaCommand.fromPacket pk).recipient = (ViscaCommand.fromPacket qk).recipient ∧
    (ViscaCommand.fromPacket pk).broadcast = (ViscaCommand.fromPacket qk).broadcast ∧
    (ViscaCommand.fromPacket pk).msgType = (ViscaCommand.fromPacket qk).msgType ∧
    (ViscaCommand.fromPacket pk).socket = (ViscaCommand.fromPacket qk).socket ∧
    (ViscaCommand.fromPacket pk).dataType = (ViscaCommand.fromPacket qk).dataType ∧
    (ViscaCommand.fromPacket pk).data = (ViscaCommand.fromPacket qk).data := by
  unfold ViscaCommand.fromPacket ViscaCommand.parsePacket
  dsimp only
  rw [h0, h1, h2]
  exact ⟨rfl, rfl, rfl, rfl, rfl, rfl, rfl⟩

/-- C8 counterexample: decoding the malformed frame `[0x81, 0x01]`
(fewer than 3 bytes, no terminator) does not fail: it returns a
populated command whose decoded fields match those of the well-formed
frame `[0x81, 0x01, 0xff]`. -/
theorem c8_malformed_frame_decodes :
    (ViscaCommand.fromPacket [0x81, 0x01]).source = 0 ∧
    (ViscaCommand.fromPacket [0x81, 0x01]).recipient = 1 ∧
    (ViscaCommand.fromPacket [0x81, 0x01]).broadcast = false ∧
    (ViscaCommand.fromPacket [0x81, 0x01]).msgType = MSGTYPE_COMMAND ∧
    (ViscaCommand.fromPacket [0x81, 0x01]).socket = 0 ∧
    (ViscaCommand.fromPacket [0x81, 0x01]).dataType = 0 ∧
    (ViscaCommand.fromPacket [0x81, 0x01]).data = [] ∧
    (ViscaCommand.fromPacket [0x81, 0x01]).msgType =
      (ViscaCommand.fromPacket [0x81, 0x01, 0xff]).msgType := by
  refine ⟨by decide, by decide, by decide, by decide, by decide, by decide,
    by decide, by decide⟩

/-- C8 amended: decoding never fails and validates nothing: the final
byte of a frame is dropped unvalidated (every choice of last byte
decodes to the same fields), and a frame of fewer than 3 bytes is still
decoded into a populated command from the bytes present. -/
theorem c8_decode_never_fails (xs : List Int) (t u : Int)
    (h : 2 ≤ xs.length) :
    ((ViscaCommand.fromPacket (xs ++ [t])).source =
        (ViscaCommand.fromPacket (xs ++ [u])).source ∧
      (ViscaCommand.fromPacket (xs ++ [t])).recipient =
        (ViscaCommand.fromPacket (xs ++ [u])).recipient ∧
      (ViscaCommand.fromPacket (xs ++ [t])).broadcast =
        (ViscaCommand.fromPacket (xs ++ [u])).broadcast ∧
      (ViscaCommand.fromPacket (xs ++ [t])).msgType =
        (ViscaCommand.fromPacket (xs ++ [u])).msgType ∧
      (ViscaCommand.fromPacket (xs ++ [t])).socket =
        (ViscaCommand.fromPacket (xs ++ [u])).socket ∧
      (ViscaCommand.fromPacket (xs ++ [t])).dataType =
        (ViscaCommand.fromPacket (xs ++ [u])).dataType ∧
      (ViscaCommand.fromPacket (xs ++ [t])).data =
        (ViscaCommand.fromPacket (xs ++ [u])).data) ∧
    (ViscaCommand.fromPacket [0x81, 0x01]).msgType = MSGTYPE_COMMAND ∧
    (ViscaCommand.fromPacket [0x81, 0x01]).recipient = 1 := by
  have htake : ∀ v : Int, (xs ++ [v]).take ((xs ++ [v]).length - 1) = xs := by
    intro v
    have hl : (xs ++ [v]).length - 1 = xs.length := by simp
    rw [hl]
    exact List.take_left xs [v]
  refine ⟨fromPacket_fields_congr _ _ ?_ ?_ ?_, by decide, by decide⟩
  · rw [List.get?_append (by omega), List.get?_append (by omega)]
  · rw [List.get?_append (by omega), List.get?_append (by omega)]
  · rw [htake, htake]

/-- C8 witness: the amended statement at the concrete malformed frame
`[0x81, 0x01]` extended with two different final bytes. -/
theorem c8_decode_never_fails_witness :
    2 ≤ ([0x81, 0x01] : List Int).length ∧
    (ViscaCommand.fromPacket ([0x81, 0x01] ++ [0xff])).data =
      (ViscaCommand.fromPacket ([0x81, 0x01] ++ [0x00])).data :=
  ⟨by decide,
    (c8_decode_never_fails [0x81, 0x01] 0xff 0x00 (by decide)).1.2.2.2.2.2.2⟩

end Visca
